import Mathlib

/-!
Shallow embedding of the verification / access-throttling subsystem of the
MOVIES_MAGIC_CLUB repository: `verification_utils.py`, `verification_tokens.py`
and the `/verify/auto` route of `routes/verify.py`.

Modelling conventions:
* MongoDB documents are Lean structures; a collection is an association list
  (key, document) with first-match semantics for `find_one` and `update_one`.
* Timestamps (`datetime.utcnow()`) are integers (seconds); the wall clock is
  passed in as a parameter `now_utc`.  `timedelta(minutes=m)` is `m * 60`.
* `today` (the IST calendar day string computed by `datetime.now(IST)`) is a
  `String` parameter.
* The Starlette session id (`get_or_create_session_id`) is a `String`
  parameter: the id the request's session carries (or the freshly minted one).
* `get_db()` returning `None` is modelled by `Option Store`; each function
  takes and returns the store, making every Mongo write explicit.
* A field a document may lack (e.g. `free_used` after the upsert performed by
  `mark_verified`, read back with `doc.get("free_used", 0)`) is an `Option`.
* `secrets.token_urlsafe(16)` / `secrets.token_hex(16)` produce fresh random
  strings; the generated value is passed in as a parameter.
* The `isinstance(verified_until, str)` re-parse branch of
  `get_user_verification_state` is not modelled: every write this subsystem
  performs stores a datetime or `None`, never a string, so the stored
  `verified_until` is `Option Int`.
-/

/-- The settings document `db.settings[_id="verification"]`; each field may be
absent (the code reads each with `doc.get(field, DEFAULT)`). -/
structure SettingsDoc where
  enabled : Option Bool
  free_limit : Option Int
  valid_minutes : Option Int
deriving Repr, DecidableEq

/-- The settings record returned by `get_verification_settings`. -/
structure Settings where
  enabled : Bool
  free_limit : Int
  valid_minutes : Int
deriving Repr, DecidableEq

/-- A document of the `verifications` collection (minus the `session_id` key,
which is the association-list key).  `free_used` is optional because the
upsert in `mark_verified` can create a document without it. -/
structure LedgerDoc where
  day : String
  free_used : Option Int
  verified_until : Option Int
  updated_at : Int
deriving Repr, DecidableEq

/-- The `state` dict returned by `get_user_verification_state`. -/
structure VState where
  free_used : Int
  verified_until : Option Int
deriving Repr, DecidableEq

/-- A document of the `verify_tokens` collection. -/
structure TokenDoc where
  token : String
  session_id : String
  next : String
  created_at : Int
deriving Repr, DecidableEq

/-- The Mongo database: the three collections this subsystem touches. -/
structure Store where
  settings : Option SettingsDoc
  verifications : List (String × LedgerDoc)
  verify_tokens : List TokenDoc
deriving Repr, DecidableEq

/-- `find_one({"session_id": sid})` on the `verifications` collection:
first document whose key matches. -/
def findDoc : List (String × LedgerDoc) → String → Option LedgerDoc
  | [], _ => none
  | (k, d) :: rest, sid => if k = sid then some d else findDoc rest sid

/-- `update_one({"session_id": sid}, ...)` without upsert: rewrite the first
matching document, leave the rest untouched. -/
def updateFirst : List (String × LedgerDoc) → String → (LedgerDoc → LedgerDoc) →
    List (String × LedgerDoc)
  | [], _, _ => []
  | (k, d) :: rest, sid, f =>
      if k = sid then (k, f d) :: rest else (k, d) :: updateFirst rest sid f

/-- Config defaults from `config.py`:
`VERIFICATION_DEFAULT_ENABLED = True`, `VERIFICATION_DEFAULT_FREE_LIMIT = 3`,
`VERIFICATION_DEFAULT_VALID_MINUTES = 1440`. -/
def defaultSettings : Settings :=
  { enabled := true, free_limit := 3, valid_minutes := 1440 }

/-- `get_verification_settings()`: config defaults when the DB is down or the
document is absent, else per-field defaulted reads. -/
def get_verification_settings : Option Store → Settings
  | none => defaultSettings
  | some store =>
      match store.settings with
      | none => defaultSettings
      | some doc =>
          { enabled := doc.enabled.getD defaultSettings.enabled,
            free_limit := doc.free_limit.getD defaultSettings.free_limit,
            valid_minutes := doc.valid_minutes.getD defaultSettings.valid_minutes }

/-- The ledger part of `get_user_verification_state` once the DB is known to be
present: look up the session's document; if absent insert a fresh one, if its
`day` differs from today reset it in place; otherwise read it back.  Returns
the `state` and the collection after the call. -/
def load_ledger_state (ledger : List (String × LedgerDoc)) (sid today : String)
    (now_utc : Int) : VState × List (String × LedgerDoc) :=
  match findDoc ledger sid with
  | none =>
      (⟨0, none⟩,
        ledger ++ [(sid, { day := today, free_used := some 0,
                           verified_until := none, updated_at := now_utc })])
  | some doc =>
      if doc.day = today then
        (⟨doc.free_used.getD 0, doc.verified_until⟩, ledger)
      else
        (⟨0, none⟩,
          updateFirst ledger sid (fun d =>
            { d with day := today, free_used := some 0,
                     verified_until := none, updated_at := now_utc }))

/-- `get_user_verification_state(request)`: settings, state and the store after
the call.  With no DB the state is the permissive `{free_used: 0,
verified_until: None}`. -/
def get_user_verification_state (db : Option Store) (sid today : String)
    (now_utc : Int) : Settings × VState × Option Store :=
  let settings := get_verification_settings db
  match db with
  | none => (settings, ⟨0, none⟩, none)
  | some store =>
      let (st, ledger) := load_ledger_state store.verifications sid today now_utc
      (settings, st, some { store with verifications := ledger })

/-- The test `if vu and datetime.utcnow() < vu` of
`should_require_verification`: a `None` value is falsy, a datetime is always
truthy, so the window is open iff `verified_until` is set and strictly in the
future. -/
def in_verified_window (vu : Option Int) (now_utc : Int) : Bool :=
  match vu with
  | some v => now_utc < v
  | none => false

/-- The decision cascade at the end of `should_require_verification`, applied
to the loaded settings and state. -/
def gate_decision (settings : Settings) (state : VState) (now_utc : Int) : Bool :=
  if settings.enabled = false then false
  else if in_verified_window state.verified_until now_utc then false
  else if state.free_used < settings.free_limit then false
  else true

/-- `should_require_verification(request)`: load the state (which may write to
the store) and run the cascade. -/
def should_require_verification (db : Option Store) (sid today : String)
    (now_utc : Int) : Bool × Option Store :=
  let (settings, state, db') := get_user_verification_state db sid today now_utc
  (gate_decision settings state now_utc, db')

/-- The `update_one({"session_id": sid}, {"$set": {day, updated_at},
"$inc": {free_used: 1}}, upsert=True)` of `increment_free_used`: on a match,
`$set` day/updated_at and `$inc` free_used (a missing field counts as 0); on
upsert, the new document is built from the query key, the `$set` fields and
`free_used = 1` from the `$inc`. -/
def upsertInc (ledger : List (String × LedgerDoc)) (sid today : String)
    (now_utc : Int) : List (String × LedgerDoc) :=
  match findDoc ledger sid with
  | some _ =>
      updateFirst ledger sid (fun d =>
        { d with day := today, updated_at := now_utc,
                 free_used := some (d.free_used.getD 0 + 1) })
  | none =>
      ledger ++ [(sid, { day := today, free_used := some 1,
                         verified_until := none, updated_at := now_utc })]

/-- `increment_free_used(request)`. -/
def increment_free_used (db : Option Store) (sid today : String)
    (now_utc : Int) : Option Store :=
  let (_, _, db') := get_user_verification_state db sid today now_utc
  match db' with
  | none => none
  | some store =>
      some { store with
               verifications := upsertInc store.verifications sid today now_utc }

/-- The `update_one({"session_id": sid}, {"$set": {day, verified_until,
updated_at}}, upsert=True)` of `mark_verified`: on upsert the new document has
no `free_used` field. -/
def upsertSet (ledger : List (String × LedgerDoc)) (sid today : String)
    (vu : Option Int) (now_utc : Int) : List (String × LedgerDoc) :=
  match findDoc ledger sid with
  | some _ =>
      updateFirst ledger sid (fun d =>
        { d with day := today, verified_until := vu, updated_at := now_utc })
  | none =>
      ledger ++ [(sid, { day := today, free_used := none,
                         verified_until := vu, updated_at := now_utc })]

/-- `mark_verified(request)`: load state (settings included), compute
`verified_until = None` when `valid_minutes <= 0` else `now + valid_minutes`
(minutes, i.e. `60 * valid_minutes` seconds), then upsert. -/
def mark_verified (db : Option Store) (sid today : String) (now_utc : Int) :
    Option Store :=
  let (settings, _, db') := get_user_verification_state db sid today now_utc
  match db' with
  | none => none
  | some store =>
      let vu : Option Int :=
        if settings.valid_minutes ≤ 0 then none
        else some (now_utc + settings.valid_minutes * 60)
      some { store with
               verifications := upsertSet store.verifications sid today vu now_utc }

/-- `create_verification_token(session_id, next_url)`: `token` is the value
produced by `secrets.token_urlsafe(16)`.  With no DB the token is returned
without being persisted; otherwise the document is inserted. -/
def create_verification_token (db : Option Store) (token session_id next_url :
    String) (now_utc : Int) : String × Option Store :=
  match db with
  | none => (token, none)
  | some store =>
      (token,
        some { store with
                 verify_tokens := store.verify_tokens ++
                   [{ token := token, session_id := session_id,
                      next := next_url, created_at := now_utc }] })

/-- `find_one({"token": token})` on `verify_tokens`. -/
def findToken : List TokenDoc → String → Option TokenDoc
  | [], _ => none
  | d :: rest, t => if d.token = t then some d else findToken rest t

/-- `delete_one({"_id": doc["_id"]})` after a `find_one({"token": token})`:
remove the first document whose token matches. -/
def removeToken : List TokenDoc → String → List TokenDoc
  | [], _ => []
  | d :: rest, t => if d.token = t then rest else d :: removeToken rest t

/-- `use_verification_token(token)`: `None` with no DB; otherwise look the
token up and, when found, delete it and return the document. -/
def use_verification_token (db : Option Store) (token : String) :
    Option TokenDoc × Option Store :=
  match db with
  | none => (none, none)
  | some store =>
      match findToken store.verify_tokens token with
      | none => (none, some store)
      | some doc =>
          (some doc,
            some { store with
                     verify_tokens := removeToken store.verify_tokens token })

/-- Outcome of the `/verify/auto` route: redirect home on a bad token, or the
success page carrying the `next` URL recovered from the token. -/
inductive VerifyAutoResult where
  | redirectHome
  | success (next_url : String)
deriving Repr, DecidableEq

/-- `verify_auto(request, token)` from `routes/verify.py`: redeem the token;
on failure redirect home; on success call `mark_verified(request)` — i.e. mark
the session of the redeeming request, `req_sid` — and render the success page
with `doc.get("next") or "/"`. -/
def verify_auto (db : Option Store) (req_sid token today : String)
    (now_utc : Int) : VerifyAutoResult × Option Store :=
  let (doc?, db1) := use_verification_token db token
  match doc? with
  | none => (.redirectHome, db1)
  | some doc =>
      let db2 := mark_verified db1 req_sid today now_utc
      (.success (if doc.next = "" then "/" else doc.next), db2)

/-- `k` successive `increment_free_used` calls (same session, day, clock). -/
def incrementN (db : Option Store) (sid today : String) (now_utc : Int) :
    Nat → Option Store
  | 0 => db
  | k + 1 => increment_free_used (incrementN db sid today now_utc k) sid today now_utc

/-- The `free_used` value the ledger records for a session, reading a missing
document or field as 0 (as `doc.get("free_used", 0)` does). -/
def ledgerFreeUsed (db : Option Store) (sid : String) : Int :=
  match db with
  | none => 0
  | some store =>
      match findDoc store.verifications sid with
      | none => 0
      | some doc => doc.free_used.getD 0

/-- The `verified_until` value the ledger records for a session (`None` for a
missing document, as `doc.get("verified_until")` would give). -/
def ledgerVerifiedUntil (db : Option Store) (sid : String) : Option Int :=
  match db with
  | none => none
  | some store =>
      match findDoc store.verifications sid with
      | none => none
      | some doc => doc.verified_until

/-- Whether the ledger holds any document at all for a session. -/
def hasLedgerEntry (db : Option Store) (sid : String) : Bool :=
  match db with
  | none => false
  | some store =>
      match findDoc store.verifications sid with
      | none => false
      | some _ => true

/-! ## Theorems -/

/-- C1: for every settings record and ledger state (entry for today with the
given counters), `should_require_verification` follows the cascade: false when
`enabled` is false; else false when `verified_until` is set and strictly in the
future; else false when `free_used < free_limit`; else true.  The second
conjunct pins down "set and strictly in the future"; the remaining conjuncts
are the `free_limit = 3` instances with `enabled = true`,
`verified_until = null`: false at `free_used = 0, 1, 2` and true at `3`. -/
theorem C1_gate_cascade :
    (∀ (en : Bool) (lim vm u t now : Int) (vu : Option Int) (sid today : String),
      (should_require_verification
          (some { settings := some { enabled := some en, free_limit := some lim,
                                     valid_minutes := some vm },
                  verifications := [(sid, { day := today, free_used := some u,
                                            verified_until := vu, updated_at := t })],
                  verify_tokens := [] }) sid today now).1
        = (if en = false then false
           else if in_verified_window vu now then false
           else if u < lim then false
           else true))
    ∧ (∀ (vu : Option Int) (now : Int),
        in_verified_window vu now = true ↔ ∃ v, vu = some v ∧ now < v)
    ∧ (∀ u : Int, u = 0 ∨ u = 1 ∨ u = 2 →
        (should_require_verification
            (some { settings := some { enabled := some true, free_limit := some 3,
                                       valid_minutes := some 60 },
                    verifications := [("s1", { day := "2026-10-12", free_used := some u,
                                               verified_until := none, updated_at := 0 })],
                    verify_tokens := [] }) "s1" "2026-10-12" 100).1 = false)
    ∧ ((should_require_verification
            (some { settings := some { enabled := some true, free_limit := some 3,
                                       valid_minutes := some 60 },
                    verifications := [("s1", { day := "2026-10-12", free_used := some 3,
                                               verified_until := none, updated_at := 0 })],
                    verify_tokens := [] }) "s1" "2026-10-12" 100).1 = true)
    := by
  refine ⟨?_, ?_, ?_, by decide⟩
  · intro en lim vm u t now vu sid today
    simp [should_require_verification, get_user_verification_state,
      get_verification_settings, load_ledger_state, findDoc, gate_decision]
  · intro vu now
    cases vu <;> simp [in_verified_window]
  · rintro u (rfl | rfl | rfl) <;> decide

/-- C6: when the document store is unavailable (`get_db()` is `None`),
`should_require_verification` returns false for every session, day and clock —
whatever settings record the unreachable store may hold, it is never read and
the defaults together with the permissive `{free_used: 0}` state always
allow. -/
theorem C6_store_down_allows (sid today : String) (now : Int) :
    should_require_verification none sid today now = (false, none) := rfl

/-- C9: with the store down, `create_verification_token` still returns the
fresh token and persists nothing, `use_verification_token` returns not-found
for every token, and `verify_auto` redirects home without marking anything
verified. -/
theorem C9_store_down_tokens (token s n t rs td : String) (now : Int) :
    create_verification_token none token s n now = (token, none) ∧
    use_verification_token none t = (none, none) ∧
    verify_auto none rs t td now = (VerifyAutoResult.redirectHome, none) :=
  ⟨rfl, rfl, rfl⟩

/-- C1 witness: the cascade theorem applied at `free_used = 1`. -/
theorem C1_gate_cascade_witness :
    (should_require_verification
        (some { settings := some { enabled := some true, free_limit := some 3,
                                   valid_minutes := some 60 },
                verifications := [("s1", { day := "2026-10-12", free_used := some 1,
                                           verified_until := none, updated_at := 0 })],
                verify_tokens := [] }) "s1" "2026-10-12" 100).1 = false :=
  C1_gate_cascade.2.2.1 1 (Or.inr (Or.inl rfl))

/-! ### Helper lemmas about the collection model (shared by several claims) -/

theorem findDoc_append_of_none (l1 l2 : List (String × LedgerDoc)) (sid : String)
    (h : findDoc l1 sid = none) : findDoc (l1 ++ l2) sid = findDoc l2 sid := by
  induction l1 with
  | nil => simp
  | cons x rest ih =>
      obtain ⟨k, d⟩ := x
      by_cases hk : k = sid
      · simp [findDoc, hk] at h
      · simp only [findDoc, hk, if_false, List.cons_append, if_neg hk] at h ⊢
        exact ih h

theorem updateFirst_append_of_none (l : List (String × LedgerDoc)) (sid : String)
    (d : LedgerDoc) (f : LedgerDoc → LedgerDoc) (h : findDoc l sid = none) :
    updateFirst (l ++ [(sid, d)]) sid f = l ++ [(sid, f d)] := by
  induction l with
  | nil => simp [updateFirst]
  | cons x rest ih =>
      obtain ⟨k, dx⟩ := x
      by_cases hk : k = sid
      · simp [findDoc, hk] at h
      · simp only [findDoc, if_neg hk] at h
        simp [updateFirst, hk, ih h]

theorem findDoc_updateFirst_self (l : List (String × LedgerDoc)) (sid : String)
    (f : LedgerDoc → LedgerDoc) :
    findDoc (updateFirst l sid f) sid = (findDoc l sid).map f := by
  induction l with
  | nil => simp [findDoc, updateFirst]
  | cons x rest ih =>
      obtain ⟨k, d⟩ := x
      by_cases hk : k = sid
      · simp [findDoc, updateFirst, hk]
      · simp [findDoc, updateFirst, hk, ih]

theorem findDoc_updateFirst_ne (l : List (String × LedgerDoc)) (sid sid2 : String)
    (f : LedgerDoc → LedgerDoc) (h : sid2 ≠ sid) :
    findDoc (updateFirst l sid f) sid2 = findDoc l sid2 := by
  induction l with
  | nil => simp [findDoc, updateFirst]
  | cons x rest ih =>
      obtain ⟨k, d⟩ := x
      by_cases hk : k = sid
      · subst hk
        simp [findDoc, updateFirst, Ne.symm h]
      · by_cases hk2 : k = sid2
        · simp [findDoc, updateFirst, hk, hk2, h]
        · simp [findDoc, updateFirst, hk, hk2, ih]

theorem findToken_append_of_none (l1 l2 : List TokenDoc) (t : String)
    (h : findToken l1 t = none) : findToken (l1 ++ l2) t = findToken l2 t := by
  induction l1 with
  | nil => simp
  | cons d rest ih =>
      by_cases hd : d.token = t
      · simp [findToken, hd] at h
      · simp only [findToken, if_neg hd, List.cons_append] at h ⊢
        exact ih h

theorem removeToken_append_of_none (l : List TokenDoc) (d : TokenDoc) (t : String)
    (h : findToken l t = none) (hd : d.token = t) :
    removeToken (l ++ [d]) t = l := by
  induction l with
  | nil => simp [removeToken, hd]
  | cons x rest ih =>
      by_cases hx : x.token = t
      · simp [findToken, hx] at h
      · simp only [findToken, if_neg hx] at h
        simp [removeToken, hx, ih h]

/-! ### C2 -/

/-- C2 counterexample: for a session with no ledger entry,
`should_require_verification` does mutate the store — the state loader inserts
a fresh ledger entry, so the claim that it performs no insert, update or
upsert is false. -/
theorem C2_counterexample :
    (should_require_verification
        (some { settings := none, verifications := [], verify_tokens := [] })
        "s1" "2026-10-12" 0).2
      ≠ some { settings := none, verifications := [], verify_tokens := [] } := by
  decide

/-- C2 amended: `should_require_verification` performs no increment and, when
the session already has a ledger entry for today, no write at all; the only
writes it can perform are the state loader's initialisation of an absent entry
or reset of a stale-day entry. -/
theorem C2_no_write_when_current (store : Store) (sid today : String) (now : Int)
    (d : LedgerDoc) (hfind : findDoc store.verifications sid = some d)
    (hday : d.day = today) :
    (should_require_verification (some store) sid today now).2 = some store := by
  simp [should_require_verification, get_user_verification_state,
    load_ledger_state, hfind, hday]

/-- C2 amended, witness. -/
theorem C2_no_write_when_current_witness :
    (should_require_verification
        (some { settings := none,
                verifications := [("s1", { day := "2026-10-12", free_used := some 2,
                                           verified_until := none, updated_at := 7 })],
                verify_tokens := [] }) "s1" "2026-10-12" 9).2
      = some { settings := none,
               verifications := [("s1", { day := "2026-10-12", free_used := some 2,
                                          verified_until := none, updated_at := 7 })],
               verify_tokens := [] } :=
  C2_no_write_when_current _ "s1" "2026-10-12" 9
    { day := "2026-10-12", free_used := some 2, verified_until := none, updated_at := 7 }
    (by decide) rfl

/-! ### C7 -/

/-- C7: a stored ledger entry whose `day` differs from today (in particular a
yesterday date or any malformed value) with any `free_used` is reset by the
next state load: the returned state is `{free_used: 0, verified_until: null}`
and the reset is persisted to the session's document. -/
theorem C7_day_rollover (store : Store) (sid today : String) (now : Int)
    (d : LedgerDoc) (hfind : findDoc store.verifications sid = some d)
    (hday : d.day ≠ today) :
    ∃ st2 : Store,
      get_user_verification_state (some store) sid today now
        = (get_verification_settings (some store), ⟨0, none⟩, some st2) ∧
      findDoc st2.verifications sid
        = some { day := today, free_used := some 0, verified_until := none,
                 updated_at := now } := by
  refine ⟨⟨store.settings,
      updateFirst store.verifications sid (fun d =>
        { d with day := today, free_used := some 0,
                 verified_until := none, updated_at := now }),
      store.verify_tokens⟩, ?_, ?_⟩
  · simp [get_user_verification_state, load_ledger_state, hfind, hday]
  · simp [findDoc_updateFirst_self, hfind]

/-- C7 witness: a yesterday entry with `free_used = 5` is reset. -/
theorem C7_day_rollover_witness :
    ∃ st2 : Store,
      get_user_verification_state
          (some { settings := none,
                  verifications := [("s1", { day := "2026-10-11", free_used := some 5,
                                             verified_until := some 99, updated_at := 0 })],
                  verify_tokens := [] }) "s1" "2026-10-12" 50
        = (get_verification_settings
            (some { settings := none,
                    verifications := [("s1", { day := "2026-10-11", free_used := some 5,
                                               verified_until := some 99, updated_at := 0 })],
                    verify_tokens := [] }), ⟨0, none⟩, some st2) ∧
      findDoc st2.verifications "s1"
        = some { day := "2026-10-12", free_used := some 0, verified_until := none,
                 updated_at := 50 } :=
  C7_day_rollover _ "s1" "2026-10-12" 50
    { day := "2026-10-11", free_used := some 5, verified_until := some 99, updated_at := 0 }
    (by decide) (by decide)

/-! ### C10 -/

/-- C10 counterexample: `mark_verified` does change `free_used` for some
prior ledger state — for a stale-day entry with `free_used = 5`, the state
loader it begins with resets the counter to 0, so the claim that `free_used`
is unchanged for every prior ledger state is false. -/
theorem C10_counterexample :
    ledgerFreeUsed
        (some { settings := none,
                verifications := [("s1", { day := "2026-10-11", free_used := some 5,
                                           verified_until := none, updated_at := 0 })],
                verify_tokens := [] }) "s1" = 5 ∧
    ledgerFreeUsed
        (mark_verified
          (some { settings := none,
                  verifications := [("s1", { day := "2026-10-11", free_used := some 5,
                                             verified_until := none, updated_at := 0 })],
                  verify_tokens := [] }) "s1" "2026-10-12" 50) "s1" = 0 := by
  decide

/-- C10 amended: when the session's entry is for today, `mark_verified`
rewrites only `day`, `verified_until` and `updated_at` — `free_used` is
preserved — and entries of other sessions are untouched.  (When the entry is
stale, the state-loading step first resets `free_used` to 0, as the
counterexample shows.) -/
theorem C10_mark_verified_frame (store : Store) (sid today : String) (now : Int)
    (d : LedgerDoc) (hfind : findDoc store.verifications sid = some d)
    (hday : d.day = today) :
    ∃ st2 : Store,
      mark_verified (some store) sid today now = some st2 ∧
      findDoc st2.verifications sid
        = some { day := today, free_used := d.free_used,
                 verified_until :=
                   (if (get_verification_settings (some store)).valid_minutes ≤ 0
                    then none
                    else some (now + (get_verification_settings (some store)).valid_minutes * 60)),
                 updated_at := now } ∧
      ∀ sid2, sid2 ≠ sid →
        findDoc st2.verifications sid2 = findDoc store.verifications sid2 := by
  refine ⟨⟨store.settings,
      upsertSet store.verifications sid today
        (if (get_verification_settings (some store)).valid_minutes ≤ 0 then none
         else some (now + (get_verification_settings (some store)).valid_minutes * 60)) now,
      store.verify_tokens⟩, ?_, ?_, ?_⟩
  · simp [mark_verified, get_user_verification_state, load_ledger_state, hfind, hday]
  · simp [upsertSet, hfind, findDoc_updateFirst_self]
  · intro sid2 hne
    simp [upsertSet, hfind, findDoc_updateFirst_ne _ _ _ _ hne]

/-- C10 amended, witness: a today entry with `free_used = 2` keeps it. -/
theorem C10_mark_verified_frame_witness :
    ∃ st2 : Store,
      mark_verified
          (some { settings := some { enabled := some true, free_limit := some 3,
                                     valid_minutes := some 30 },
                  verifications := [("s1", { day := "2026-10-12", free_used := some 2,
                                             verified_until := none, updated_at := 0 })],
                  verify_tokens := [] }) "s1" "2026-10-12" 50 = some st2 ∧
      findDoc st2.verifications "s1"
        = some { day := "2026-10-12", free_used := some 2,
                 verified_until :=
                   (if (get_verification_settings
                        (some { settings := some { enabled := some true, free_limit := some 3,
                                                   valid_minutes := some 30 },
                                verifications := [("s1", { day := "2026-10-12",
                                                           free_used := some 2,
                                                           verified_until := none,
                                                           updated_at := 0 })],
                                verify_tokens := [] })).valid_minutes ≤ 0
                    then none
                    else some (50 + (get_verification_settings
                        (some { settings := some { enabled := some true, free_limit := some 3,
                                                   valid_minutes := some 30 },
                                verifications := [("s1", { day := "2026-10-12",
                                                           free_used := some 2,
                                                           verified_until := none,
                                                           updated_at := 0 })],
                                verify_tokens := [] })).valid_minutes * 60)),
                 updated_at := 50 } ∧
      ∀ sid2, sid2 ≠ "s1" →
        findDoc st2.verifications sid2
          = findDoc [("s1", { day := "2026-10-12", free_used := some 2,
                              verified_until := none,
                              updated_at := 0 : LedgerDoc })] sid2 :=
  C10_mark_verified_frame _ "s1" "2026-10-12" 50
    { day := "2026-10-12", free_used := some 2, verified_until := none, updated_at := 0 }
    (by decide) rfl

/-! ### C3 -/

/-- C3: for a freshly generated token (no document with that token value is
already stored), issuing binds it to `(session_id, next)`, the first redeem
returns exactly that record (and removes it), and a second redeem of the same
token returns not-found. -/
theorem C3_token_one_time (store : Store) (token s n : String) (tc : Int)
    (hfresh : findToken store.verify_tokens token = none) :
    ∃ st1 : Store,
      create_verification_token (some store) token s n tc = (token, some st1) ∧
      use_verification_token (some st1) token
        = (some { token := token, session_id := s, next := n, created_at := tc },
           some store) ∧
      (use_verification_token (some store) token).1 = none := by
  refine ⟨⟨store.settings, store.verifications,
      store.verify_tokens ++
        [{ token := token, session_id := s, next := n, created_at := tc }]⟩,
    ?_, ?_, ?_⟩
  · rfl
  · have h1 : findToken (store.verify_tokens ++
        [{ token := token, session_id := s, next := n, created_at := tc }]) token
        = some { token := token, session_id := s, next := n, created_at := tc } := by
      rw [findToken_append_of_none _ _ _ hfresh]
      simp [findToken]
    have h2 : removeToken (store.verify_tokens ++
        [{ token := token, session_id := s, next := n, created_at := tc }]) token
        = store.verify_tokens :=
      removeToken_append_of_none store.verify_tokens
        { token := token, session_id := s, next := n, created_at := tc } token hfresh rfl
    simp [use_verification_token, h1, h2]
  · simp [use_verification_token, hfresh]

/-- C3 witness: issue and doubly redeem a concrete token. -/
theorem C3_token_one_time_witness :
    ∃ st1 : Store,
      create_verification_token
          (some { settings := none, verifications := [], verify_tokens := [] })
          "T1" "s1" "/movie/42" 0 = ("T1", some st1) ∧
      use_verification_token (some st1) "T1"
        = (some { token := "T1", session_id := "s1", next := "/movie/42",
                  created_at := 0 },
           some { settings := none, verifications := [], verify_tokens := [] }) ∧
      (use_verification_token
          (some { settings := none, verifications := [], verify_tokens := [] })
          "T1").1 = none :=
  C3_token_one_time _ "T1" "s1" "/movie/42" 0 (by decide)

/-! ### C4 -/

/-- C4 counterexample: a token bound to session "sA" is redeemed by a request
whose session is "sB".  Redemption succeeds and grants the grace period to
"sB" (the redeeming session), while "sA" — the session that requested the
token — is never marked at all: the claim that redemption marks exactly the
bound session and never a different one is false. -/
theorem C4_counterexample :
    (verify_auto
        (some { settings := some { enabled := some true, free_limit := some 1,
                                   valid_minutes := some 30 },
                verifications := [],
                verify_tokens := [{ token := "T", session_id := "sA",
                                    next := "/movie/42", created_at := 0 }] })
        "sB" "T" "2026-10-12" 1000).1 = VerifyAutoResult.success "/movie/42" ∧
    ledgerVerifiedUntil
        ((verify_auto
            (some { settings := some { enabled := some true, free_limit := some 1,
                                       valid_minutes := some 30 },
                    verifications := [],
                    verify_tokens := [{ token := "T", session_id := "sA",
                                        next := "/movie/42", created_at := 0 }] })
            "sB" "T" "2026-10-12" 1000).2) "sB" = some (1000 + 30 * 60) ∧
    hasLedgerEntry
        ((verify_auto
            (some { settings := some { enabled := some true, free_limit := some 1,
                                       valid_minutes := some 30 },
                    verifications := [],
                    verify_tokens := [{ token := "T", session_id := "sA",
                                        next := "/movie/42", created_at := 0 }] })
            "sB" "T" "2026-10-12" 1000).2) "sA" = false := by
  decide

/-- C4 amended: successful redemption via `/verify/auto` calls
`mark_verified(request)` and therefore marks the session of the redeeming
request, not the session bound to the token: whenever the redeeming request's
session `rs` differs from the bound session `s`, the grace period is granted
to `rs` and `s` is not marked (here on a store with fresh ledger and exactly
the issued token, with a positive `valid_minutes`). -/
theorem C4_marks_redeeming_session (s rs n today tok : String) (m now tc : Int)
    (hne : s ≠ rs) (hm : 0 < m) :
    (verify_auto
        (some { settings := some { enabled := some true, free_limit := some 1,
                                   valid_minutes := some m },
                verifications := [],
                verify_tokens := [{ token := tok, session_id := s, next := n,
                                    created_at := tc }] })
        rs tok today now).1 = VerifyAutoResult.success (if n = "" then "/" else n) ∧
    ledgerVerifiedUntil
        ((verify_auto
            (some { settings := some { enabled := some true, free_limit := some 1,
                                       valid_minutes := some m },
                    verifications := [],
                    verify_tokens := [{ token := tok, session_id := s, next := n,
                                        created_at := tc }] })
            rs tok today now).2) rs = some (now + m * 60) ∧
    hasLedgerEntry
        ((verify_auto
            (some { settings := some { enabled := some true, free_limit := some 1,
                                       valid_minutes := some m },
                    verifications := [],
                    verify_tokens := [{ token := tok, session_id := s, next := n,
                                        created_at := tc }] })
            rs tok today now).2) s = false := by
  have hm2 : ¬ (m ≤ 0) := by omega
  refine ⟨?_, ?_, ?_⟩ <;>
    simp [verify_auto, use_verification_token, findToken, removeToken,
      mark_verified, get_user_verification_state, load_ledger_state, findDoc,
      upsertSet, updateFirst, get_verification_settings, defaultSettings,
      ledgerVerifiedUntil, hasLedgerEntry, hm2, hne, Ne.symm hne]

/-- C4 amended, witness. -/
theorem C4_marks_redeeming_session_witness :
    (verify_auto
        (some { settings := some { enabled := some true, free_limit := some 1,
                                   valid_minutes := some 30 },
                verifications := [],
                verify_tokens := [{ token := "T", session_id := "sA",
                                    next := "/movie/42", created_at := 0 }] })
        "sB" "T" "2026-10-12" 1000).1
      = VerifyAutoResult.success (if "/movie/42" = "" then "/" else "/movie/42") ∧
    ledgerVerifiedUntil
        ((verify_auto
            (some { settings := some { enabled := some true, free_limit := some 1,
                                       valid_minutes := some 30 },
                    verifications := [],
                    verify_tokens := [{ token := "T", session_id := "sA",
                                        next := "/movie/42", created_at := 0 }] })
            "sB" "T" "2026-10-12" 1000).2) "sB" = some (1000 + 30 * 60) ∧
    hasLedgerEntry
        ((verify_auto
            (some { settings := some { enabled := some true, free_limit := some 1,
                                       valid_minutes := some 30 },
                    verifications := [],
                    verify_tokens := [{ token := "T", session_id := "sA",
                                        next := "/movie/42", created_at := 0 }] })
            "sB" "T" "2026-10-12" 1000).2) "sA" = false :=
  C4_marks_redeeming_session "sA" "sB" "/movie/42" "2026-10-12" "T" 30 1000 0
    (by decide) (by decide)

/-! ### C5 -/

/-- C5 counterexample: `valid_minutes = 0`, `enabled = true`,
`free_limit = 1`, a today entry with `free_used = 1`.  `mark_verified` stores
`verified_until = null`, and immediately afterwards (same day, later clock)
`should_require_verification` returns true — not false as the claim states:
a 0-minute setting grants no grace period at all. -/
theorem C5_counterexample :
    ledgerVerifiedUntil
        (mark_verified
          (some { settings := some { enabled := some true, free_limit := some 1,
                                     valid_minutes := some 0 },
                  verifications := [("s1", { day := "2026-10-12", free_used := some 1,
                                             verified_until := none, updated_at := 0 })],
                  verify_tokens := [] }) "s1" "2026-10-12" 100) "s1" = none ∧
    (should_require_verification
        (mark_verified
          (some { settings := some { enabled := some true, free_limit := some 1,
                                     valid_minutes := some 0 },
                  verifications := [("s1", { day := "2026-10-12", free_used := some 1,
                                             verified_until := none, updated_at := 0 })],
                  verify_tokens := [] }) "s1" "2026-10-12" 100)
        "s1" "2026-10-12" 101).1 = true := by
  decide

/-- C5 amended: when `valid_minutes ≤ 0`, `mark_verified` stores
`verified_until = null`, and the gate does not treat `null` as a verified
window: with `enabled = true` and `free_used ≥ free_limit` the session is
still gated for the rest of the day — a `0`-minute grace period means no
grace, not grace until day rollover. -/
theorem C5_zero_minutes_no_grace (sid today : String) (u lim vm t now now2 : Int)
    (hvm : vm ≤ 0) (hul : lim ≤ u) :
    ledgerVerifiedUntil
        (mark_verified
          (some { settings := some { enabled := some true, free_limit := some lim,
                                     valid_minutes := some vm },
                  verifications := [(sid, { day := today, free_used := some u,
                                            verified_until := none, updated_at := t })],
                  verify_tokens := [] }) sid today now) sid = none ∧
    (should_require_verification
        (mark_verified
          (some { settings := some { enabled := some true, free_limit := some lim,
                                     valid_minutes := some vm },
                  verifications := [(sid, { day := today, free_used := some u,
                                            verified_until := none, updated_at := t })],
                  verify_tokens := [] }) sid today now)
        sid today now2).1 = true := by
  have hul2 : ¬ (u < lim) := by omega
  refine ⟨?_, ?_⟩ <;>
    simp [mark_verified, get_user_verification_state, load_ledger_state, findDoc,
      upsertSet, updateFirst, get_verification_settings, defaultSettings,
      should_require_verification, gate_decision, in_verified_window,
      ledgerVerifiedUntil, hvm, hul2]

/-- C5 amended, witness. -/
theorem C5_zero_minutes_no_grace_witness :
    ledgerVerifiedUntil
        (mark_verified
          (some { settings := some { enabled := some true, free_limit := some 1,
                                     valid_minutes := some 0 },
                  verifications := [("s1", { day := "2026-10-12", free_used := some 1,
                                             verified_until := none, updated_at := 0 })],
                  verify_tokens := [] }) "s1" "2026-10-12" 100) "s1" = none ∧
    (should_require_verification
        (mark_verified
          (some { settings := some { enabled := some true, free_limit := some 1,
                                     valid_minutes := some 0 },
                  verifications := [("s1", { day := "2026-10-12", free_used := some 1,
                                             verified_until := none, updated_at := 0 })],
                  verify_tokens := [] }) "s1" "2026-10-12" 100)
        "s1" "2026-10-12" 101).1 = true :=
  C5_zero_minutes_no_grace "s1" "2026-10-12" 1 1 0 0 100 101 (by decide) (by decide)

/-! ### C8 -/

/-- The first `increment_free_used` call for a session the ledger does not
know: the state loader inserts the fresh document and the upsert bumps it to
`free_used = 1`. -/
theorem increment_free_used_fresh (store : Store) (sid today : String)
    (now : Int) (hfresh : findDoc store.verifications sid = none) :
    increment_free_used (some store) sid today now
      = some ⟨store.settings,
          store.verifications ++
            [(sid, { day := today, free_used := some 1,
                     verified_until := none, updated_at := now })],
          store.verify_tokens⟩ := by
  have hfind : findDoc (store.verifications ++
      [(sid, { day := today, free_used := some 0,
               verified_until := none, updated_at := now : LedgerDoc })]) sid
      = some { day := today, free_used := some 0,
               verified_until := none, updated_at := now } := by
    rw [findDoc_append_of_none _ _ _ hfresh]
    simp [findDoc]
  have hload : load_ledger_state store.verifications sid today now
      = (⟨0, none⟩,
         store.verifications ++
           [(sid, { day := today, free_used := some 0,
                    verified_until := none, updated_at := now })]) := by
    simp [load_ledger_state, hfresh]
  simp only [increment_free_used, get_user_verification_state, hload, upsertInc,
    hfind]
  rw [updateFirst_append_of_none _ _ _ _ hfresh]
  simp

/-- A further `increment_free_used` call for a session whose (today) document
is the one appended at the end of the collection bumps `free_used` by one. -/
theorem increment_free_used_append (store : Store) (sid today : String)
    (now u : Int) (hfresh : findDoc store.verifications sid = none) :
    increment_free_used
        (some ⟨store.settings,
            store.verifications ++
              [(sid, { day := today, free_used := some u,
                       verified_until := none, updated_at := now })],
            store.verify_tokens⟩) sid today now
      = some ⟨store.settings,
          store.verifications ++
            [(sid, { day := today, free_used := some (u + 1),
                     verified_until := none, updated_at := now })],
          store.verify_tokens⟩ := by
  have hfind : findDoc (store.verifications ++
      [(sid, { day := today, free_used := some u,
               verified_until := none, updated_at := now : LedgerDoc })]) sid
      = some { day := today, free_used := some u,
               verified_until := none, updated_at := now } := by
    rw [findDoc_append_of_none _ _ _ hfresh]
    simp [findDoc]
  have hload : load_ledger_state
      (store.verifications ++
        [(sid, { day := today, free_used := some u,
                 verified_until := none, updated_at := now })]) sid today now
      = (⟨u, none⟩,
         store.verifications ++
           [(sid, { day := today, free_used := some u,
                    verified_until := none, updated_at := now })]) := by
    simp [load_ledger_state, hfind]
  simp only [increment_free_used, get_user_verification_state, hload, upsertInc,
    hfind]
  rw [updateFirst_append_of_none _ _ _ _ hfresh]
  simp

/-- After `k ≥ 1` increments for a session the ledger previously did not know,
the collection is the original one with the session's fresh document appended,
carrying `free_used = k`. -/
theorem incrementN_fresh (store : Store) (sid today : String) (now : Int) :
    ∀ k : Nat, findDoc store.verifications sid = none → 0 < k →
    incrementN (some store) sid today now k
      = some ⟨store.settings,
          store.verifications ++
            [(sid, { day := today, free_used := some (k : Int),
                     verified_until := none, updated_at := now })],
          store.verify_tokens⟩ := by
  intro k
  induction k with
  | zero => intro _ h0; exact absurd h0 (by omega)
  | succ k ih =>
      intro hfresh _
      by_cases hk : 0 < k
      · simp only [incrementN]
        rw [ih hfresh hk, increment_free_used_append store sid today now _ hfresh]
        push_cast
        ring_nf
      · have hk0 : k = 0 := by omega
        subst hk0
        simp only [incrementN]
        rw [increment_free_used_fresh store sid today now hfresh]
        norm_num

/-- C8: `k` calls to `increment_free_used` within one day for a fresh session
(no prior ledger entry) leave the session's ledger `free_used` at exactly
`k`. -/
theorem C8_increment_k (store : Store) (sid today : String) (now : Int) (k : Nat)
    (hfresh : findDoc store.verifications sid = none) :
    ledgerFreeUsed (incrementN (some store) sid today now k) sid = (k : Int) := by
  cases k with
  | zero => simp [incrementN, ledgerFreeUsed, hfresh]
  | succ k =>
      rw [incrementN_fresh store sid today now (k + 1) hfresh (Nat.succ_pos k)]
      simp only [ledgerFreeUsed]
      rw [findDoc_append_of_none _ _ _ hfresh]
      simp [findDoc]

/-- C8 witness: three increments for a fresh session give `free_used = 3`. -/
theorem C8_increment_k_witness :
    ledgerFreeUsed
        (incrementN (some { settings := none, verifications := [],
                            verify_tokens := [] }) "s1" "2026-10-12" 40 3) "s1"
      = (3 : Int) :=
  C8_increment_k { settings := none, verifications := [], verify_tokens := [] }
    "s1" "2026-10-12" 40 3 (by decide)
